import Mathlib

/-!
Shallow embedding of the vnc-overlay RFB proxy (src/rfb.rs, src/client.rs,
src/lib.rs) and proofs about its claims.

Bytes are modelled as `Nat` values below 256 inside `List Nat` buffers.
Decoding follows `bytes::Buf` semantics: the guarded `ensure_size` check
returns `InsufficientBytes`, while the raw accessors (`get_u8`, `get_u16`,
`get_u32`, `get_i32`, `split_to`) abort the process when the buffer is too
short, which we model with a dedicated `panicked` result.
-/

namespace VncOverlay

/-- DecodeError from src/rfb.rs lines 8-18. -/
inductive DecodeError where
  | insufficientBytes
  | utf8
  | unsupportedC2S (m : Nat)
  | unsupportedS2C (m : Nat)
deriving DecidableEq, Repr

/-- Result of running a decoder on a buffer: success with the remaining
bytes, a `DecodeError`, or a process abort (Rust panic in `bytes::Buf`). -/
inductive DecodeResult (α : Type) where
  | ok (value : α) (rest : List Nat)
  | err (e : DecodeError)
  | panicked
deriving DecidableEq, Repr

/-- A decoder consumes a byte buffer, mirroring `read_from(buf: &mut Bytes)`. -/
def Dec (α : Type) : Type := List Nat → DecodeResult α

/-- Sequencing of decoders: run the first, feed the remaining bytes to the
second; errors and panics short-circuit, mirroring Rust's `?` operator. -/
def Dec.bind {α β : Type} (m : Dec α) (f : α → Dec β) : Dec β := fun buf =>
  match m buf with
  | .ok a rest => f a rest
  | .err e => .err e
  | .panicked => .panicked

/-- A decoder that consumes nothing and returns a value. -/
def Dec.pure {α : Type} (a : α) : Dec α := fun buf => .ok a buf

instance : Monad Dec where
  pure := Dec.pure
  bind := Dec.bind

/-- Fail with a decode error. -/
def decErr {α : Type} (e : DecodeError) : Dec α := fun _ => .err e

/-- ensure_size from src/rfb.rs lines 20-26: `InsufficientBytes` unless the
buffer holds at least `size` bytes; consumes nothing. -/
def ensure_size (size : Nat) : Dec Unit := fun buf =>
  if size ≤ buf.length then .ok () buf else .err .insufficientBytes

/-- bytes::Buf::get_u8 - reads one byte, panics on an empty buffer. -/
def get_u8 : Dec Nat := fun buf =>
  match buf with
  | b :: rest => .ok b rest
  | [] => .panicked

/-- bytes::Buf::get_u16 - reads a big-endian u16, panics below 2 bytes. -/
def get_u16 : Dec Nat := fun buf =>
  match buf with
  | b1 :: b0 :: rest => .ok (b1 * 256 + b0) rest
  | _ => .panicked

/-- bytes::Buf::get_u32 - reads a big-endian u32, panics below 4 bytes. -/
def get_u32 : Dec Nat := fun buf =>
  match buf with
  | b3 :: b2 :: b1 :: b0 :: rest =>
      .ok (((b3 * 256 + b2) * 256 + b1) * 256 + b0) rest
  | _ => .panicked

/-- bytes::Buf::get_i32 - big-endian i32, two's complement. -/
def get_i32 : Dec Int := fun buf =>
  match get_u32 buf with
  | .ok v rest => .ok (if v < 2 ^ 31 then (v : Int) else (v : Int) - 2 ^ 32) rest
  | .err e => .err e
  | .panicked => .panicked

/-- bytes::Bytes::split_to - takes the first `n` bytes, panics if fewer. -/
def split_to (n : Nat) : Dec (List Nat) := fun buf =>
  if n ≤ buf.length then .ok (buf.take n) (buf.drop n) else .panicked

/-- Big-endian 16-bit encoding of a value (BufMut::put_u16, value wraps
modulo 2 to the 16 when the Rust value was converted with try_into). -/
def be16 (n : Nat) : List Nat := [n / 256 % 256, n % 256]

/-- Big-endian 32-bit encoding of a value (BufMut::put_u32). -/
def be32 (n : Nat) : List Nat :=
  [n / 2 ^ 24 % 256, n / 2 ^ 16 % 256, n / 2 ^ 8 % 256, n % 256]

/-- Big-endian 32-bit two's-complement encoding (BufMut::put_i32). -/
def beI32 (n : Int) : List Nat := be32 (n % 2 ^ 32).toNat

/-- UTF-8 validation automaton state: bytes of the current sequence still
pending, and the admissible half-open range for the next byte. -/
def utf8Fold : List Nat → Nat × Nat × Nat → Bool
  | [], (0, _, _) => true
  | [], (_ + 1, _, _) => false
  | b :: r, (0, _, _) =>
      if b < 0x80 then utf8Fold r (0, 0, 0)
      else if b < 0xC2 then false
      else if b < 0xE0 then utf8Fold r (1, 0x80, 0xC0)
      else if b = 0xE0 then utf8Fold r (2, 0xA0, 0xC0)
      else if b = 0xED then utf8Fold r (2, 0x80, 0xA0)
      else if b < 0xF0 then utf8Fold r (2, 0x80, 0xC0)
      else if b = 0xF0 then utf8Fold r (3, 0x90, 0xC0)
      else if b < 0xF4 then utf8Fold r (3, 0x80, 0xC0)
      else if b = 0xF4 then utf8Fold r (3, 0x80, 0x90)
      else false
  | b :: r, (n + 1, lo, hi) =>
      if lo ≤ b ∧ b < hi then utf8Fold r (n, 0x80, 0xC0) else false

/-- Validity check performed by Rust's `String::from_utf8`: the byte list is
well-formed UTF-8 (no overlong forms, no surrogates, at most U+10FFFF). -/
def validUtf8 (l : List Nat) : Bool := utf8Fold l (0, 0, 0)

/-- String::read_from, src/rfb.rs lines 36-42: a 4-byte big-endian length,
that many bytes, decoded strictly as UTF-8 (`DecodeError::Utf8` otherwise).
The decoded Rust `String` is modelled as its UTF-8 byte list. -/
def readString : Dec (List Nat) := do
  ensure_size 4
  let len ← get_u32
  ensure_size len
  let bytes ← split_to len
  if validUtf8 bytes then pure bytes else decErr .utf8

/-- String::write_to, src/rfb.rs lines 44-48: length then the raw bytes. -/
def writeString (s : List Nat) : List Nat := be32 s.length ++ s

/-- Version, src/rfb.rs line 52: 12 opaque bytes of the version banner. -/
structure Version where
  bytes : List Nat
deriving DecidableEq, Repr

/-- Version::read_from, src/rfb.rs lines 55-59. -/
def Version.read_from : Dec Version := do
  ensure_size 12
  let bytes ← split_to 12
  pure (Version.mk bytes)

/-- Version::write_to, src/rfb.rs lines 61-63: the raw bytes. -/
def Version.write_to (v : Version) : List Nat := v.bytes

/-- SecurityTypes, src/rfb.rs line 76. -/
structure SecurityTypes where
  types : List Nat
deriving DecidableEq, Repr

/-- SecurityTypes::read_from, src/rfb.rs lines 79-85. -/
def SecurityTypes.read_from : Dec SecurityTypes := do
  ensure_size 1
  let count ← get_u8
  ensure_size count
  let bytes ← split_to count
  pure (SecurityTypes.mk bytes)

/-- SecurityTypes::write_to, src/rfb.rs lines 87-91 (the count is the
list length converted to u8 with try_into; wraps kept modulo 256). -/
def SecurityTypes.write_to (s : SecurityTypes) : List Nat :=
  s.types.length % 256 :: s.types

/-- SecurityType, src/rfb.rs line 102: one byte. -/
structure SecurityType where
  value : Nat
deriving DecidableEq, Repr

/-- SecurityType::read_from, src/rfb.rs lines 105-108. -/
def SecurityType.read_from : Dec SecurityType := do
  ensure_size 1
  let b ← get_u8
  pure (SecurityType.mk b)

/-- SecurityType::write_to, src/rfb.rs lines 110-112. -/
def SecurityType.write_to (s : SecurityType) : List Nat := [s.value % 256]

/-- SecurityResult, src/rfb.rs line 125: a 4-byte status. -/
structure SecurityResult where
  status : Nat
deriving DecidableEq, Repr

/-- SecurityResult::read_from, src/rfb.rs lines 128-131. -/
def SecurityResult.read_from : Dec SecurityResult := do
  ensure_size 4
  let v ← get_u32
  pure (SecurityResult.mk v)

/-- SecurityResult::write_to, src/rfb.rs lines 133-135. -/
def SecurityResult.write_to (s : SecurityResult) : List Nat := be32 s.status

/-- ClientInit, src/rfb.rs lines 146-148. -/
structure ClientInit where
  shared : Bool
deriving DecidableEq, Repr

/-- ClientInit::read_from, src/rfb.rs lines 151-155. -/
def ClientInit.read_from : Dec ClientInit := do
  ensure_size 1
  let b ← get_u8
  pure (ClientInit.mk (b ≠ 0))

/-- ClientInit::write_to, src/rfb.rs lines 157-159. -/
def ClientInit.write_to (c : ClientInit) : List Nat :=
  [if c.shared then 1 else 0]

/-- PixelFormat, src/rfb.rs lines 180-191. -/
structure PixelFormat where
  bits_per_pixel : Nat
  depth : Nat
  big_endian : Bool
  true_colour : Bool
  red_max : Nat
  green_max : Nat
  blue_max : Nat
  red_shift : Nat
  green_shift : Nat
  blue_shift : Nat
deriving DecidableEq, Repr

/-- PixelFormat::read_from, src/rfb.rs lines 194-210. -/
def PixelFormat.read_from : Dec PixelFormat := do
  ensure_size 16
  let bpp ← get_u8
  let depth ← get_u8
  let be ← get_u8
  let tc ← get_u8
  let rmax ← get_u16
  let gmax ← get_u16
  let bmax ← get_u16
  let rsh ← get_u8
  let gsh ← get_u8
  let bsh ← get_u8
  let _pad ← split_to 3
  pure (PixelFormat.mk bpp depth (be ≠ 0) (tc ≠ 0) rmax gmax bmax rsh gsh bsh)

/-- PixelFormat::write_to, src/rfb.rs lines 212-224. -/
def PixelFormat.write_to (p : PixelFormat) : List Nat :=
  [p.bits_per_pixel % 256, p.depth % 256,
   if p.big_endian then 1 else 0, if p.true_colour then 1 else 0] ++
  be16 p.red_max ++ be16 p.green_max ++ be16 p.blue_max ++
  [p.red_shift % 256, p.green_shift % 256, p.blue_shift % 256, 0, 0, 0]

/-- ServerInit, src/rfb.rs lines 239-244. -/
structure ServerInit where
  framebuffer_width : Nat
  framebuffer_height : Nat
  pixel_format : PixelFormat
  name : List Nat
deriving DecidableEq, Repr

/-- ServerInit::read_from, src/rfb.rs lines 247-255. -/
def ServerInit.read_from : Dec ServerInit := do
  ensure_size 4
  let w ← get_u16
  let h ← get_u16
  let pf ← PixelFormat.read_from
  let name ← readString
  pure (ServerInit.mk w h pf name)

/-- ServerInit::write_to, src/rfb.rs lines 257-262. -/
def ServerInit.write_to (s : ServerInit) : List Nat :=
  be16 s.framebuffer_width ++ be16 s.framebuffer_height ++
  s.pixel_format.write_to ++ writeString s.name

/-- Encoding, src/rfb.rs lines 295-305. -/
inductive Encoding where
  | Unknown (n : Int)
  | Raw
  | CopyRect
  | Rre
  | Hextile
  | Trle
  | Zrle
  | Cursor
  | DesktopSize
deriving DecidableEq, Repr

/-- Encoding::read_from, src/rfb.rs lines 308-322. -/
def Encoding.read_from : Dec Encoding := do
  ensure_size 4
  let n ← get_i32
  pure (if n = 0 then Encoding.Raw
    else if n = 1 then Encoding.CopyRect
    else if n = 2 then Encoding.Rre
    else if n = 5 then Encoding.Hextile
    else if n = 15 then Encoding.Trle
    else if n = 16 then Encoding.Zrle
    else if n = -239 then Encoding.Cursor
    else if n = -223 then Encoding.DesktopSize
    else Encoding.Unknown n)

/-- Encoding::write_to, src/rfb.rs lines 324-337. -/
def Encoding.write_to : Encoding → List Nat
  | .Raw => beI32 0
  | .CopyRect => beI32 1
  | .Rre => beI32 2
  | .Hextile => beI32 5
  | .Trle => beI32 15
  | .Zrle => beI32 16
  | .Cursor => beI32 (-239)
  | .DesktopSize => beI32 (-223)
  | .Unknown n => beI32 n

/-- C2S client-to-server messages, src/rfb.rs lines 340-416. Rust `String`
payloads are modelled as their UTF-8 byte lists. -/
inductive C2S where
  | SetPixelFormat (pixel_format : PixelFormat)
  | SetEncodings (encodings : List Encoding)
  | FramebufferUpdateRequest (incremental : Bool) (x y width height : Nat)
  | KeyEvent (down : Bool) (key : Nat)
  | PointerEvent (button_mask : Nat) (x y : Nat)
  | CutText (text : List Nat)
deriving DecidableEq, Repr

/-- Sequential `(0..count).map(Encoding::read_from).collect()` loop used by
C2S::read_from for SetEncodings (src/rfb.rs lines 432-434), fail-fast. -/
def readEncodings : Nat → Dec (List Encoding)
  | 0 => pure []
  | n + 1 => do
      let e ← Encoding.read_from
      let es ← readEncodings n
      pure (e :: es)

/-- C2S::read_from, src/rfb.rs lines 419-469. Note the SetEncodings branch
(type byte 2) only guards one padding byte with ensure_size before calling
the panicking `get_u16` for the encoding count. -/
def C2S.read_from : Dec C2S := do
  ensure_size 1
  let message_type ← get_u8
  match message_type with
  | 0 => do
      ensure_size 3
      let _pad ← split_to 3
      let pf ← PixelFormat.read_from
      pure (C2S.SetPixelFormat pf)
  | 2 => do
      ensure_size 1
      let _pad ← split_to 1
      let count ← get_u16
      let encodings ← readEncodings count
      pure (C2S.SetEncodings encodings)
  | 3 => do
      ensure_size 9
      let incremental ← get_u8
      let x ← get_u16
      let y ← get_u16
      let width ← get_u16
      let height ← get_u16
      pure (C2S.FramebufferUpdateRequest (incremental ≠ 0) x y width height)
  | 4 => do
      ensure_size 7
      let down ← get_u8
      let _pad ← split_to 2
      let key ← get_u32
      pure (C2S.KeyEvent (down ≠ 0) key)
  | 5 => do
      ensure_size 5
      let bm ← get_u8
      let x ← get_u16
      let y ← get_u16
      pure (C2S.PointerEvent bm x y)
  | 6 => do
      ensure_size 3
      let _pad ← split_to 3
      let text ← readString
      pure (C2S.CutText text)
  | m => decErr (.unsupportedC2S m)

/-- C2S::write_to, src/rfb.rs lines 471-517. The CutText arm writes only
`String::write_to(text, buf)` - no message-type byte 6 and no 3 padding
bytes, although the doc table at lines 404-413 documents both. -/
def C2S.write_to : C2S → List Nat
  | .SetPixelFormat pixel_format => 0 :: [0, 0, 0] ++ pixel_format.write_to
  | .SetEncodings encodings =>
      2 :: 0 :: be16 encodings.length ++ encodings.flatMap Encoding.write_to
  | .FramebufferUpdateRequest incremental x y width height =>
      3 :: (if incremental then 1 else 0) :: be16 x ++ be16 y ++
      be16 width ++ be16 height
  | .KeyEvent down key =>
      4 :: (if down then 1 else 0) :: 0 :: 0 :: be32 key
  | .PointerEvent button_mask x y =>
      5 :: button_mask % 256 :: be16 x ++ be16 y
  | .CutText text => writeString text

/-- Rectangle header, src/rfb.rs lines 531-537. -/
structure Rectangle where
  x : Nat
  y : Nat
  width : Nat
  height : Nat
  encoding : Encoding
deriving DecidableEq, Repr

/-- Rectangle::read_from, src/rfb.rs lines 540-549. -/
def Rectangle.read_from : Dec Rectangle := do
  ensure_size 8
  let x ← get_u16
  let y ← get_u16
  let width ← get_u16
  let height ← get_u16
  let encoding ← Encoding.read_from
  pure (Rectangle.mk x y width height encoding)

/-- Rectangle::write_to, src/rfb.rs lines 551-557. -/
def Rectangle.write_to (r : Rectangle) : List Nat :=
  be16 r.x ++ be16 r.y ++ be16 r.width ++ be16 r.height ++ r.encoding.write_to

/-- Rectangle::payload_size, src/rfb.rs lines 560-574. Returns `none` for
the encodings on which the Rust code aborts with `unimplemented!`. -/
def Rectangle.payload_size (r : Rectangle) (format : PixelFormat) : Option Nat :=
  match r.encoding with
  | .Raw => some (r.width * r.height * (format.bits_per_pixel / 8))
  | .Cursor => some (r.width * r.height * (format.bits_per_pixel / 8) +
      (r.width + 7) / 8 * r.height)
  | .CopyRect => some 4
  | _ => none

/-- S2C server-to-client messages, src/rfb.rs lines 577-620. -/
inductive S2C where
  | FramebufferUpdate (count : Nat)
  | SetColorMapEntries (first_color : Nat) (colors : List Nat)
  | Bell
  | CutText (text : List Nat)
deriving DecidableEq, Repr

/-- S2C::read_from, src/rfb.rs lines 623-653. The SetColorMapEntries branch
(type byte 1) performs no ensure_size before its `get_u8`, `get_u16`,
`get_u16` reads, so those panic on a short buffer. -/
def S2C.read_from : Dec S2C := do
  ensure_size 1
  let message_type ← get_u8
  match message_type with
  | 0 => do
      ensure_size 3
      let _pad ← get_u8
      let count ← get_u16
      pure (S2C.FramebufferUpdate count)
  | 1 => do
      let _pad ← get_u8
      let first_color ← get_u16
      let count ← get_u16
      ensure_size (count * 3 * 2)
      let colors ← split_to (count * 3 * 2)
      pure (S2C.SetColorMapEntries first_color colors)
  | 2 => pure S2C.Bell
  | 3 => do
      ensure_size 3
      let _pad ← split_to 3
      let text ← readString
      pure (S2C.CutText text)
  | m => decErr (.unsupportedS2C m)

/-- S2C::write_to, src/rfb.rs lines 655-682. -/
def S2C.write_to : S2C → List Nat
  | .FramebufferUpdate count => 0 :: 0 :: be16 count
  | .SetColorMapEntries first_color colors =>
      1 :: 0 :: be16 first_color ++ be16 (colors.length / 6) ++ colors
  | .Bell => [2]
  | .CutText text => 3 :: [0, 0, 0] ++ writeString text

/-- Zrle payload message, src/rfb.rs line 693. -/
structure Zrle where
  data : List Nat
deriving DecidableEq, Repr

/-- Zrle::read_from, src/rfb.rs lines 696-701. -/
def Zrle.read_from : Dec Zrle := do
  ensure_size 4
  let len ← get_u32
  ensure_size len
  let data ← split_to len
  pure (Zrle.mk data)

/-- Zrle::write_to, src/rfb.rs lines 703-707. -/
def Zrle.write_to (z : Zrle) : List Nat := be32 z.data.length ++ z.data

/-- Icon, src/lib.rs lines 43-49. All fields are u16 in Rust; the RGBA
bytes are an opaque static slice. -/
structure Icon where
  x : Nat
  y : Nat
  width : Nat
  height : Nat
  rgba_data : List Nat
deriving DecidableEq, Repr

/-- Icon::in_bounds, src/lib.rs lines 52-54. The u16 sums `x + width` and
`y + height` are taken modulo 2 to the 16 (release-mode wrapping; a debug
build would abort on overflow). -/
def Icon.in_bounds (icon : Icon) (x y : Nat) : Bool :=
  decide (icon.x ≤ x) && decide (x < (icon.x + icon.width) % 65536) &&
  decide (icon.y ≤ y) && decide (y < (icon.y + icon.height) % 65536)

/-- Event, src/lib.rs lines 38-41. ClientId is a usize. -/
inductive Event where
  | Action (id : Nat)
  | Disconnect (id : Nat)
deriving DecidableEq, Repr

/-- One iteration of C2SHandler::handle, src/client.rs lines 184-235, as a
pure step: given the icon the state currently assigns to this client, the
`forward_request` flag, and the `mouse_pressed` field, process one decoded
C2S message and produce the new `mouse_pressed`, the message forwarded to
the server (if any), and the events emitted via `Client::send_action`. -/
def c2sStep (icon : Icon) (id : Nat) (forward_request : Bool)
    (mouse_pressed : Bool) : C2S → Bool × Option C2S × List Event
  | C2S.SetEncodings _ =>
      (mouse_pressed,
       some (C2S.SetEncodings
         [Encoding.Raw, Encoding.Cursor, Encoding.CopyRect, Encoding.Zrle]),
       [])
  | C2S.SetPixelFormat pixel_format =>
      (mouse_pressed, some (C2S.SetPixelFormat pixel_format), [])
  | C2S.PointerEvent button_mask x y =>
      let mouse_pressed_new := button_mask % 2 = 1
      let click := mouse_pressed && !mouse_pressed_new
      let captured := click && icon.in_bounds x y
      (mouse_pressed_new,
       if captured then none else some (C2S.PointerEvent button_mask x y),
       if captured then [Event.Action id] else [])
  | C2S.FramebufferUpdateRequest incremental x y w h =>
      (mouse_pressed,
       if forward_request
         then some (C2S.FramebufferUpdateRequest incremental x y w h)
         else none,
       [])
  | m => (mouse_pressed, some m, [])

/-- Runs c2sStep over a list of incoming C2S messages, threading
`mouse_pressed` (initially false, src/client.rs line 75) and collecting the
per-message outcome. -/
def c2sRun (icon : Icon) (id : Nat) (forward_request : Bool) :
    Bool → List C2S → List (Option C2S × List Event)
  | _, [] => []
  | mouse_pressed, m :: ms =>
      let r := c2sStep icon id forward_request mouse_pressed m
      r.2 :: c2sRun icon id forward_request r.1 ms

/-- One item written to the client socket by the S2C relay. -/
inductive S2COut where
  | msg (m : S2C)
  | rect (r : Rectangle)
  | zrleMsg (z : Zrle)
  | data (bytes : List Nat)
deriving DecidableEq, Repr

/-- Relay of one rectangle inside the FramebufferUpdate loop, src/client.rs
lines 277-293: forward the header, then forward the payload - a Zrle
message, nothing for DesktopSize, or `payload_size` raw bytes. `none`
models the `unimplemented!` abort inside payload_size. The server stream
is abstracted as the rectangle header paired with its payload bytes. -/
def relayRect (fmt : PixelFormat) (rp : Rectangle × List Nat) :
    Option (List S2COut) :=
  match rp.1.encoding with
  | .Zrle => some [S2COut.rect rp.1, S2COut.zrleMsg (Zrle.mk rp.2)]
  | .DesktopSize => some [S2COut.rect rp.1]
  | _ =>
      match rp.1.payload_size fmt with
      | some _ => some [S2COut.rect rp.1, S2COut.data rp.2]
      | none => none

/-- The `for _ in 0..count` relay loop of S2CHandler::handle_message:
relays `n` rectangles from the stream, returning the written items and the
unread remainder; `none` when the stream runs out or a rectangle is
unsupported. -/
def relayN (fmt : PixelFormat) :
    Nat → List (Rectangle × List Nat) → Option (List S2COut × List (Rectangle × List Nat))
  | 0, s => some ([], s)
  | _ + 1, [] => none
  | n + 1, rp :: s =>
      match relayRect fmt rp with
      | none => none
      | some out =>
          match relayN fmt n s with
          | none => none
          | some (rest, s') => some (out ++ rest, s')

/-- S2CHandler::send_icon, src/client.rs lines 320-336: a Raw rectangle
with the icon's geometry followed by its RGBA bytes. -/
def iconOut (icon : Icon) : List S2COut :=
  [S2COut.rect (Rectangle.mk icon.x icon.y icon.width icon.height Encoding.Raw),
   S2COut.data icon.rgba_data]

/-- S2CHandler::handle_message, src/client.rs lines 263-303, as a pure
function of the current pixel format, the icon the state assigns to this
client, the decoded S2C message, and the per-rectangle server stream.
Returns the items written to the client, or `none` when the relay aborts.
The u16 header rewrite `count + 1` wraps modulo 2 to the 16 (release
semantics; a debug build would abort at count 65535). -/
def handle_message (fmt : PixelFormat) (icon : Icon) (message : S2C)
    (stream : List (Rectangle × List Nat)) : Option (List S2COut) :=
  match message with
  | S2C.FramebufferUpdate count =>
      let send_icon := fmt.bits_per_pixel = 32
      let header := if send_icon
        then S2C.FramebufferUpdate ((count + 1) % 65536)
        else S2C.FramebufferUpdate count
      match relayN fmt count stream with
      | none => none
      | some (body, _) =>
          some (S2COut.msg header ::
            (body ++ if send_icon then iconOut icon else []))
  | m => some [S2COut.msg m]

/-- Version banner bytes b"RFB 003.003\n". -/
def rfb33 : List Nat := [82, 70, 66, 32, 48, 48, 51, 46, 48, 48, 51, 10]

/-- Version banner bytes b"RFB 003.008\n". -/
def rfb38 : List Nat := [82, 70, 66, 32, 48, 48, 51, 46, 48, 48, 56, 10]

/-- Client::handshake fixes its `version` to the 3.3 literal
(src/client.rs line 119: `let version = b"RFB 003.003\n";`) after the two
version banners have been exchanged; the peers' banners do not enter the
choice. -/
def negotiated_version (server_version client_version : List Nat) : List Nat :=
  rfb33

/-- Whether the handshake performs the extra SecurityResult read+forward,
src/client.rs lines 151-154: `if version == b"RFB 003.008\n"` on the local
`version` constant. -/
def handshakeReadsExtraSecResult (server_version client_version : List Nat) : Bool :=
  negotiated_version server_version client_version = rfb38

/-- tokio watch Sender::send_if_modified as used at src/lib.rs line 88:
runs the closure with exclusive access to the value and notifies the
subscribers exactly when the closure returns true. The returned Bool is
"a new-state notification was published". -/
def sendIfModified {S : Type} (f : S → S × Bool) (s : S) : S × Bool := f s

/-- The state-writer loop of run_proxy, src/lib.rs lines 87-89: for each
received event it runs `state_tx.send_if_modified(|state|
state.handle_event(event))`. The result lists, per event in order, the
event that was applied and whether a notification was published. -/
def writerRun {S : Type} (handle_event : S → Event → S × Bool) :
    S → List Event → List (Event × Bool)
  | _, [] => []
  | s, e :: es =>
      let r := sendIfModified (fun st => handle_event st e) s
      (e, r.2) :: writerRun handle_event r.1 es

/-- State reached after the writer loop has applied a list of events. -/
def applyAll {S : Type} (handle_event : S → Event → S × Bool) :
    S → List Event → S
  | s, [] => s
  | s, e :: es => applyAll handle_event (handle_event s e).1 es

/-- Concrete state-provider handle_event used to exercise the writer loop:
the state is a counter, and only the first event reports a change. -/
def exampleHandle : Nat → Event → Nat × Bool :=
  fun s _ => (s + 1, decide (s = 0))

/-! Helper lemmas about the decoder monad and the relay loop. -/

theorem dec_bind_eq {α β : Type} :
    (Bind.bind : Dec α → (α → Dec β) → Dec β) = Dec.bind := rfl

theorem dec_bind_ok {α β : Type} {m : Dec α} {f : α → Dec β} {buf : List Nat}
    {a : α} {rest : List Nat} (h : m buf = .ok a rest) :
    Dec.bind m f buf = f a rest := by
  simp [Dec.bind, h]

theorem ensure_size_ok {size : Nat} {buf : List Nat} (h : size ≤ buf.length) :
    ensure_size size buf = .ok () buf := by
  simp [ensure_size, h]

theorem get_u32_be32 {n : Nat} (h : n < 2 ^ 32) (t : List Nat) :
    get_u32 (be32 n ++ t) = .ok n t := by
  simp only [be32, List.cons_append, List.nil_append, get_u32,
    DecodeResult.ok.injEq, and_true]
  omega

theorem split_to_append (p t : List Nat) :
    split_to p.length (p ++ t) = .ok p t := by
  simp [split_to, List.take_left, List.drop_left]

theorem relayN_sound (fmt : PixelFormat) :
    ∀ (n : Nat) (s : List (Rectangle × List Nat)) (b : List S2COut)
      (r : List (Rectangle × List Nat)), relayN fmt n s = some (b, r) →
      b = (s.take n).flatMap (fun rp => (relayRect fmt rp).getD []) ∧
      r = s.drop n ∧ n ≤ s.length := by
  intro n
  induction n with
  | zero =>
      intro s b r h
      simp [relayN] at h
      simp [h.1, h.2]
  | succ n ih =>
      intro s b r h
      match s with
      | [] => simp [relayN] at h
      | rp :: s' =>
          simp only [relayN] at h
          cases hrr : relayRect fmt rp with
          | none => rw [hrr] at h; simp at h
          | some out =>
              rw [hrr] at h
              cases hrn : relayN fmt n s' with
              | none => rw [hrn] at h; simp at h
              | some pr =>
                  rw [hrn] at h
                  obtain ⟨rest, s''⟩ := pr
                  simp at h
                  obtain ⟨hb, hr⟩ := h
                  obtain ⟨h1, h2, h3⟩ := ih s' rest s'' hrn
                  subst hb hr h1 h2
                  simp [List.take_succ_cons, List.drop_succ_cons, hrr]
                  omega

theorem relayN_replicate (fmt : PixelFormat) (n : Nat) :
    relayN fmt n
      (List.replicate n (Rectangle.mk 0 0 0 0 Encoding.DesktopSize, [])) =
    some (List.replicate n
      (S2COut.rect (Rectangle.mk 0 0 0 0 Encoding.DesktopSize)), []) := by
  induction n with
  | zero => rfl
  | succ n ih => simp [List.replicate_succ, relayN, relayRect, ih]

theorem headReplicate (n : Nat) :
    Option.map List.head?
      (handle_message (PixelFormat.mk 32 24 false true 255 255 255 16 8 0)
        (Icon.mk 1 2 3 4 [9]) (S2C.FramebufferUpdate n)
        (List.replicate n (Rectangle.mk 0 0 0 0 Encoding.DesktopSize, []))) =
      some (some (S2COut.msg (S2C.FramebufferUpdate ((n + 1) % 65536)))) := by
  have h := relayN_replicate
      (PixelFormat.mk 32 24 false true 255 255 255 16 8 0) n
  simp only [handle_message, h]
  simp

/-! Claim theorems. -/

/-- C1 (code bug): round-trip fails for C2S::CutText. The claim says
decode(encode(m)) = m for every C2S value and that the buffer holds the
documented byte count (1 type + 3 pad + 4 length + text, so 8 bytes for an
empty CutText). The code's write_to omits the type byte and padding that
its own doc table (src/rfb.rs lines 404-413) requires: the empty CutText
encodes to 4 bytes that decode as a truncated SetPixelFormat. -/
theorem c1_cuttext_roundtrip_broken :
    C2S.write_to (C2S.CutText []) = [0, 0, 0, 0] ∧
    C2S.read_from (C2S.write_to (C2S.CutText [])) =
      DecodeResult.err DecodeError.insufficientBytes := by
  decide

/-- C2 (code bug): decoding a strict leading part of an encoded message can
panic instead of returning InsufficientBytes. The SetEncodings branch of
C2S::read_from (src/rfb.rs line 431) calls the panicking `get_u16` with no
ensure_size guard: the first 2 bytes of encode(SetEncodings []) = [2,0,0,0]
abort the process. -/
theorem c2_underrun_panic :
    C2S.write_to (C2S.SetEncodings []) = [2, 0] ++ [0, 0] ∧
    C2S.read_from [2, 0] = DecodeResult.panicked := by
  decide

/-- C3 (amended): when bits_per_pixel is 32, a FramebufferUpdate{count}
from the server yields a FramebufferUpdate{(count+1) mod 2^16} header, the
count relayed rectangles with their payloads, and the extra Raw rectangle
with the icon's geometry last - provided the relay loop succeeds (every
rectangle's encoding is Zrle, DesktopSize, Raw, Cursor, or CopyRect). The
unamended "count+1" fails at count = 65535, where the u16 wraps to 0. -/
theorem c3_overlay_injection (fmt : PixelFormat) (icon : Icon) (count : Nat)
    (stream : List (Rectangle × List Nat)) (body : List S2COut)
    (rest : List (Rectangle × List Nat))
    (h32 : fmt.bits_per_pixel = 32)
    (hrelay : relayN fmt count stream = some (body, rest)) :
    handle_message fmt icon (S2C.FramebufferUpdate count) stream =
      some (S2COut.msg (S2C.FramebufferUpdate ((count + 1) % 65536)) ::
        (body ++ iconOut icon)) ∧
    body = (stream.take count).flatMap (fun rp => (relayRect fmt rp).getD []) := by
  constructor
  · simp [handle_message, h32, hrelay]
  · exact (relayN_sound fmt count stream body rest hrelay).1

/-- C3 witness: one Raw rectangle at 32bpp; the client sees the header with
count 2, the relayed rectangle and payload, then the icon rectangle. -/
theorem c3_overlay_injection_witness :
    handle_message (PixelFormat.mk 32 24 false true 255 255 255 16 8 0)
      (Icon.mk 1 2 3 4 [9]) (S2C.FramebufferUpdate 1)
      [(Rectangle.mk 0 0 2 2 Encoding.Raw, [7, 7])] =
      some (S2COut.msg (S2C.FramebufferUpdate ((1 + 1) % 65536)) ::
        ([S2COut.rect (Rectangle.mk 0 0 2 2 Encoding.Raw), S2COut.data [7, 7]] ++
          iconOut (Icon.mk 1 2 3 4 [9]))) ∧
    [S2COut.rect (Rectangle.mk 0 0 2 2 Encoding.Raw), S2COut.data [7, 7]] =
      ([(Rectangle.mk 0 0 2 2 Encoding.Raw, [7, 7])].take 1).flatMap
        (fun rp => (relayRect (PixelFormat.mk 32 24 false true 255 255 255 16 8 0) rp).getD []) :=
  c3_overlay_injection (PixelFormat.mk 32 24 false true 255 255 255 16 8 0)
    (Icon.mk 1 2 3 4 [9]) 1 [(Rectangle.mk 0 0 2 2 Encoding.Raw, [7, 7])]
    [S2COut.rect (Rectangle.mk 0 0 2 2 Encoding.Raw), S2COut.data [7, 7]] []
    rfl (by decide)

/-- C3 counterexample: at count = 65535 the first item written to the
client is a FramebufferUpdate{0} header, not the claimed count c+1 = 65536:
the u16 increment wraps (a debug build aborts instead). -/
theorem c3_count_wrap_counterexample :
    Option.map List.head?
      (handle_message (PixelFormat.mk 32 24 false true 255 255 255 16 8 0)
        (Icon.mk 1 2 3 4 [9]) (S2C.FramebufferUpdate 65535)
        (List.replicate 65535 (Rectangle.mk 0 0 0 0 Encoding.DesktopSize, []))) =
      some (some (S2COut.msg (S2C.FramebufferUpdate 0))) ∧
    S2C.FramebufferUpdate 0 ≠ S2C.FramebufferUpdate (65535 + 1) :=
  ⟨(headReplicate 65535).trans (by norm_num), by decide⟩

/-- C4: in a pointer sequence whose button bit 0 goes from set to clear at
(x, y), the press is forwarded; the release is swallowed with exactly one
Action event when (x, y) lies inside the icon's bounding box, and forwarded
with no event otherwise. -/
theorem c4_click_capture (icon : Icon) (id : Nat) (fwd : Bool)
    (mask1 mask2 x1 y1 x y : Nat) (hp : mask1 % 2 = 1) (hr : mask2 % 2 = 0) :
    c2sRun icon id fwd false
      [C2S.PointerEvent mask1 x1 y1, C2S.PointerEvent mask2 x y] =
      [(some (C2S.PointerEvent mask1 x1 y1), []),
       if icon.in_bounds x y then (none, [Event.Action id])
       else (some (C2S.PointerEvent mask2 x y), [])] := by
  cases hib : icon.in_bounds x y <;>
    simp [c2sRun, c2sStep, hp, hr, hib]

/-- C4 witness: the literal scenario of spec section 8 - icon bounds
16 by 16 at the origin, press then release at (5, 5): press forwarded,
release swallowed, one Action for client 7. -/
theorem c4_click_capture_witness :
    c2sRun (Icon.mk 0 0 16 16 []) 7 true false
      [C2S.PointerEvent 1 5 5, C2S.PointerEvent 0 5 5] =
      [(some (C2S.PointerEvent 1 5 5), []),
       if (Icon.mk 0 0 16 16 []).in_bounds 5 5 then (none, [Event.Action 7])
       else (some (C2S.PointerEvent 0 5 5), [])] :=
  c4_click_capture (Icon.mk 0 0 16 16 []) 7 true 1 0 5 5 5 5 rfl rfl

/-- C5: whatever encodings the client offered, the forwarded SetEncodings
carries exactly [Raw, Cursor, CopyRect, ZRLE] (src/client.rs lines 186-194). -/
theorem c5_encoding_rewrite (icon : Icon) (id : Nat) (fwd mp : Bool)
    (es : List Encoding) :
    c2sStep icon id fwd mp (C2S.SetEncodings es) =
      (mp, some (C2S.SetEncodings
        [Encoding.Raw, Encoding.Cursor, Encoding.CopyRect, Encoding.Zrle]), []) :=
  rfl

/-- C6: rectangle payload sizes in exact integer arithmetic - Raw is
w*h*(bpp/8), Cursor adds the mask rows ceil(w/8)*h (written (w+7)/8, which
the last two conjuncts characterize as the ceiling of w/8), CopyRect is 4. -/
theorem c6_payload_size (format : PixelFormat) (x y w h : Nat)
    (hbpp : format.bits_per_pixel = 8 ∨ format.bits_per_pixel = 16 ∨
      format.bits_per_pixel = 32) :
    (Rectangle.mk x y w h Encoding.Raw).payload_size format =
      some (w * h * (format.bits_per_pixel / 8)) ∧
    (Rectangle.mk x y w h Encoding.Cursor).payload_size format =
      some (w * h * (format.bits_per_pixel / 8) + (w + 7) / 8 * h) ∧
    (Rectangle.mk x y w h Encoding.CopyRect).payload_size format = some 4 ∧
    w ≤ 8 * ((w + 7) / 8) ∧ 8 * ((w + 7) / 8) < w + 8 := by
  refine ⟨rfl, rfl, rfl, by omega, by omega⟩

/-- C6 witness: a 5 by 3 rectangle at 32bpp - Raw carries 60 bytes, Cursor
63, CopyRect 4. -/
theorem c6_payload_size_witness :
    (Rectangle.mk 1 2 5 3 Encoding.Raw).payload_size
        (PixelFormat.mk 32 24 false true 255 255 255 16 8 0) =
      some (5 * 3 * ((PixelFormat.mk 32 24 false true 255 255 255 16 8 0).bits_per_pixel / 8)) ∧
    (Rectangle.mk 1 2 5 3 Encoding.Cursor).payload_size
        (PixelFormat.mk 32 24 false true 255 255 255 16 8 0) =
      some (5 * 3 * ((PixelFormat.mk 32 24 false true 255 255 255 16 8 0).bits_per_pixel / 8) +
        (5 + 7) / 8 * 3) ∧
    (Rectangle.mk 1 2 5 3 Encoding.CopyRect).payload_size
        (PixelFormat.mk 32 24 false true 255 255 255 16 8 0) = some 4 ∧
    5 ≤ 8 * ((5 + 7) / 8) ∧ 8 * ((5 + 7) / 8) < 5 + 8 :=
  c6_payload_size (PixelFormat.mk 32 24 false true 255 255 255 16 8 0)
    1 2 5 3 (Or.inr (Or.inr rfl))

/-- C7 (amended): string decoding succeeds exactly on valid UTF-8 payloads.
For a buffer of a 4-byte big-endian length prefix, that many payload bytes
and anything after, the decode returns the payload iff it is valid UTF-8
and fails with the Utf8 error otherwise (String::from_utf8 is strict). -/
theorem c7_string_decode (n : Nat) (payload rest : List Nat)
    (hn : n < 2 ^ 32) (hlen : payload.length = n) :
    readString (be32 n ++ (payload ++ rest)) =
      if validUtf8 payload then DecodeResult.ok payload rest
      else DecodeResult.err DecodeError.utf8 := by
  subst hlen
  simp only [readString, dec_bind_eq]
  rw [dec_bind_ok (ensure_size_ok (by simp [be32]))]
  rw [dec_bind_ok (get_u32_be32 hn _)]
  rw [dec_bind_ok (ensure_size_ok (by simp))]
  rw [dec_bind_ok (split_to_append _ _)]
  cases hv : validUtf8 payload <;> simp [hv, Pure.pure, Dec.pure, decErr]

/-- C7 witness: the two-byte payload [72, 105] is valid UTF-8 and decodes
back with the trailing byte left in the buffer. -/
theorem c7_string_decode_witness :
    readString (be32 2 ++ ([72, 105] ++ [9])) =
      if validUtf8 [72, 105] then DecodeResult.ok [72, 105] [9]
      else DecodeResult.err DecodeError.utf8 :=
  c7_string_decode 2 [72, 105] [9] (by decide) rfl

/-- C7 counterexample: the claim says no byte content causes a decode
error, but the buffer [0,0,0,1,255] (length prefix 1, payload byte 255,
which is not valid UTF-8) fails with the Utf8 decode error. -/
theorem c7_arbitrary_bytes_counterexample :
    readString [0, 0, 0, 1, 255] = DecodeResult.err DecodeError.utf8 := by
  decide

/-- C8 (code bug): the extra SecurityResult read after security selection
never happens, whatever versions the peers advertised - src/client.rs line
119 fixes the local `version` to b"RFB 003.003" so the comparison at line
151 is false even when both sides negotiated 003.008. -/
theorem c8_extra_security_result_never (sv cv : List Nat) :
    handshakeReadsExtraSecResult sv cv = false := by
  rfl

/-- C9: the state-writer loop applies handle_event exactly once per
consumed event, in order, and publishes a state-change notification for an
event iff handle_event returned true on it (send_if_modified semantics):
the entry at position pre.length records the event and exactly the Bool
handle_event produced at the state reached by the prefix. -/
theorem c9_single_writer {S : Type} (handle_event : S → Event → S × Bool)
    (s0 : S) (events : List Event) :
    (writerRun handle_event s0 events).map Prod.fst = events ∧
    ∀ pre e post, events = pre ++ e :: post →
      (writerRun handle_event s0 events)[pre.length]? =
        some (e, (handle_event (applyAll handle_event s0 pre) e).2) := by
  constructor
  · induction events generalizing s0 with
    | nil => rfl
    | cons e es ih => simp [writerRun, sendIfModified, ih]
  · intro pre e post hsplit
    subst hsplit
    induction pre generalizing s0 with
    | nil => simp [writerRun, sendIfModified, applyAll]
    | cons p pre ih => simp [writerRun, sendIfModified, applyAll, ih]

/-- C9 witness: a counter state over two events - both are applied once;
the first notifies (handle returned true), the second does not. -/
theorem c9_single_writer_witness :
    (writerRun exampleHandle 0 [Event.Action 0, Event.Disconnect 1]).map Prod.fst =
      [Event.Action 0, Event.Disconnect 1] ∧
    (writerRun exampleHandle 0 [Event.Action 0, Event.Disconnect 1])[
        ([Event.Action 0] : List Event).length]? =
      some (Event.Disconnect 1,
        (exampleHandle (applyAll exampleHandle 0 [Event.Action 0])
          (Event.Disconnect 1)).2) :=
  ⟨(c9_single_writer exampleHandle 0 [Event.Action 0, Event.Disconnect 1]).1,
   (c9_single_writer exampleHandle 0 [Event.Action 0, Event.Disconnect 1]).2
     [Event.Action 0] (Event.Disconnect 1) [] rfl⟩

/-- C10: when the u16 sums cannot overflow, Icon::in_bounds is the
half-open box test - left and top edges inside, right and bottom edges
outside. -/
theorem c10_in_bounds_iff (icon : Icon) (x y : Nat)
    (hx : icon.x + icon.width ≤ 65535) (hy : icon.y + icon.height ≤ 65535) :
    icon.in_bounds x y = true ↔
      (icon.x ≤ x ∧ x < icon.x + icon.width ∧
       icon.y ≤ y ∧ y < icon.y + icon.height) := by
  have h1 : (icon.x + icon.width) % 65536 = icon.x + icon.width :=
    Nat.mod_eq_of_lt (by omega)
  have h2 : (icon.y + icon.height) % 65536 = icon.y + icon.height :=
    Nat.mod_eq_of_lt (by omega)
  simp [Icon.in_bounds, h1, h2, and_assoc]

/-- C10 witness: the icon at (2, 3) with size 4 by 5 contains its top-left
corner. -/
theorem c10_in_bounds_iff_witness :
    (Icon.mk 2 3 4 5 []).in_bounds 2 3 = true ↔
      ((Icon.mk 2 3 4 5 []).x ≤ 2 ∧ 2 < (Icon.mk 2 3 4 5 []).x + (Icon.mk 2 3 4 5 []).width ∧
       (Icon.mk 2 3 4 5 []).y ≤ 3 ∧ 3 < (Icon.mk 2 3 4 5 []).y + (Icon.mk 2 3 4 5 []).height) :=
  c10_in_bounds_iff (Icon.mk 2 3 4 5 []) 2 3 (by decide) (by decide)

end VncOverlay
